import Mathlib

/-!
Verification development for the reddit client library (client.rs, error.rs,
types.rs).  The JSON data model of `types.rs` is embedded as a `Json` tree
together with executable decoders that mirror the derived serde
deserializers, and the fetch operations of `client.rs` are embedded over an
explicit model of the HTTP transport (reqwest with its default
redirect-following policy).

Modelling conventions:
- JSON numbers are modelled as integers (`Int`); no claim depends on the
  fractional part of a number, and the `f64` fields of `types.rs` are
  exercised only with integral values.
- Unknown object keys are ignored, as by the derived serde deserializers
  (none of the structs opts into `deny_unknown_fields`); key lookup takes
  the first occurrence, so documents are assumed free of duplicate keys.
- `#[serde(flatten)]` composition (`Votable`, `Created`, `ThingData`) is
  modelled by decoding the flattened fragment from the same object's field
  list.
- Lean does not allow mutually recursive `structure` declarations, so the
  mutually recursive record types (`Thing`, `Listing`, `Link`) are single
  constructor inductives whose constructor arguments carry the field names
  of the Rust structs, in declaration order.
-/

/-- A parsed JSON document (the shape `serde_json` hands to the derived
deserializers of `types.rs`). -/
inductive Json where
  | null
  | bool (b : Bool)
  | num (n : Int)
  | str (s : String)
  | arr (elems : List Json)
  | obj (fields : List (String × Json))

/-- Look a key up in the field list of a JSON object (first occurrence). -/
def Json.lookup (fields : List (String × Json)) (key : String) : Option Json :=
  match fields with
  | [] => none
  | (k, v) :: rest => if k = key then some v else Json.lookup rest key

/-- A value found in an object's field list is structurally smaller than the
list; this justifies termination of the recursive decoders. -/
theorem Json.lookup_sizeOf {fields : List (String × Json)} {key : String} {v : Json}
    (h : Json.lookup fields key = some v) : sizeOf v < sizeOf fields := by
  induction fields with
  | nil => simp [Json.lookup] at h
  | cons p rest ih =>
    obtain ⟨k, w⟩ := p
    simp only [Json.lookup] at h
    by_cases hk : k = key
    · simp [hk] at h
      subst h
      simp
      omega
    · simp [hk] at h
      have := ih h
      simp
      omega

/-- Sequencing of fallible decode steps: models the `?` propagation inside
the derived deserializers.  (A plain function rather than the `Option`
monad's `bind`.) -/
def andThen (x : Option α) (f : α → Option β) : Option β :=
  match x with
  | none => none
  | some a => f a

theorem andThen_none (f : α → Option β) : andThen none f = none := rfl

theorem andThen_some (a : α) (f : α → Option β) : andThen (some a) f = f a := rfl

theorem andThen_const_none (x : Option α) :
    andThen x (fun _ => (none : Option β)) = none := by
  cases x <;> rfl

theorem andThen_eq_some {x : Option α} {f : α → Option β} {b : β} :
    andThen x f = some b ↔ ∃ a, x = some a ∧ f a = some b := by
  cases x <;> simp [andThen]

/-- Decode a JSON string (`Box<str>` fields). -/
def decodeString : Json → Option String
  | Json.str s => some s
  | _ => none

/-- Decode a JSON boolean (`bool` fields). -/
def decodeBool : Json → Option Bool
  | Json.bool b => some b
  | _ => none

/-- Decode a signed integer (`i64` fields). -/
def decodeI64 : Json → Option Int
  | Json.num n => some n
  | _ => none

/-- Decode an unsigned integer (`u64`/`u32` fields); rejects negatives. -/
def decodeU64 : Json → Option Nat
  | Json.num n => if 0 ≤ n then some n.toNat else none
  | _ => none

/-- Decode an `f64` field; numbers are modelled as integers. -/
def decodeF64 : Json → Option Int := decodeI64

/-- Decode a `serde_json::Value` field: untyped passthrough, accepts
anything present. -/
def decodeValue (j : Json) : Option Json := some j

/-- Decode a required struct field: missing key is a decode failure. -/
def decodeField (dec : Json → Option α) : Option Json → Option α
  | none => none
  | some v => dec v

/-- Decode an `Option<_>` struct field: a missing key or an explicit `null`
is `none`; any other value must decode. -/
def decodeOptField (dec : Json → Option α) : Option Json → Option (Option α)
  | none => some none
  | some Json.null => some none
  | some v => (dec v).map some

/-- `PostHint` of `types.rs`: closed enumeration of content classifications. -/
inductive PostHint where
  | Image
  | Link
  | HostedVideo
  | RichVideo
  | DataSelf
  | Gallery

/-- Decoder for `PostHint`: the six serde rename strings; anything else
fails (serde: unknown variant). -/
def decodePostHint : Json → Option PostHint
  | Json.str s =>
    if s = "image" then some PostHint.Image
    else if s = "link" then some PostHint.Link
    else if s = "hosted:video" then some PostHint.HostedVideo
    else if s = "rich:video" then some PostHint.RichVideo
    else if s = "self" then some PostHint.DataSelf
    else if s = "gallery" then some PostHint.Gallery
    else none
  | _ => none

/-- `Votable` of `types.rs` (flattened vote fragment). -/
structure Votable where
  ups : Int
  downs : Nat
  likes : Option Bool

/-- Decode the flattened `Votable` fragment from an object's field list. -/
def decodeVotable (fields : List (String × Json)) : Option Votable :=
  andThen (decodeField decodeI64 (Json.lookup fields "ups")) fun ups =>
  andThen (decodeField decodeU64 (Json.lookup fields "downs")) fun downs =>
  andThen (decodeOptField decodeBool (Json.lookup fields "likes")) fun likes =>
  some (Votable.mk ups downs likes)

/-- `Created` of `types.rs` (flattened creation-timestamp fragment). -/
structure Created where
  created : Int
  created_utc : Int

/-- Decode the flattened `Created` fragment from an object's field list. -/
def decodeCreated (fields : List (String × Json)) : Option Created :=
  andThen (decodeField decodeF64 (Json.lookup fields "created")) fun created =>
  andThen (decodeField decodeF64 (Json.lookup fields "created_utc")) fun created_utc =>
  some (Created.mk created created_utc)

/-- `More` of `types.rs`: ids of children omitted from a listing page. -/
structure More where
  children : List String

/-- Decoder for `More` (`kind == "more"`). -/
def decodeMore (j : Json) : Option More :=
  match j with
  | Json.obj fields =>
    match Json.lookup fields "children" with
    | some (Json.arr xs) => (xs.mapM decodeString).map More.mk
    | _ => none
  | _ => none

/-- `Comment` of `types.rs` (`kind == "t1"`). -/
structure Comment where
  approved_by : Option String
  author : String
  author_flair_css_class : Option String
  author_flair_text : Option String
  banned_by : Option String
  body : String
  body_html : String
  special : Option Json
  gilded : Nat
  likes : Option Bool
  link_author : Option String
  link_id : String
  link_title : Option String
  link_url : Option String
  num_reports : Option Nat
  parent_id : String
  saved : Bool
  score : Int
  score_hidden : Bool
  subreddit : String
  subreddit_id : String
  distinguished : Option String
  votable : Votable
  created : Created

/-- Decoder for `Comment`, field by field in declaration order, the two
flattened fragments read from the same object. -/
def decodeComment (j : Json) : Option Comment :=
  match j with
  | Json.obj fields =>
    andThen (decodeOptField decodeString (Json.lookup fields "approved_by")) fun approved_by =>
    andThen (decodeField decodeString (Json.lookup fields "author")) fun author =>
    andThen (decodeOptField decodeString (Json.lookup fields "author_flair_css_class")) fun author_flair_css_class =>
    andThen (decodeOptField decodeString (Json.lookup fields "author_flair_text")) fun author_flair_text =>
    andThen (decodeOptField decodeString (Json.lookup fields "banned_by")) fun banned_by =>
    andThen (decodeField decodeString (Json.lookup fields "body")) fun body =>
    andThen (decodeField decodeString (Json.lookup fields "body_html")) fun body_html =>
    andThen (decodeOptField decodeValue (Json.lookup fields "special")) fun special =>
    andThen (decodeField decodeU64 (Json.lookup fields "gilded")) fun gilded =>
    andThen (decodeOptField decodeBool (Json.lookup fields "likes")) fun likes =>
    andThen (decodeOptField decodeString (Json.lookup fields "link_author")) fun link_author =>
    andThen (decodeField decodeString (Json.lookup fields "link_id")) fun link_id =>
    andThen (decodeOptField decodeString (Json.lookup fields "link_title")) fun link_title =>
    andThen (decodeOptField decodeString (Json.lookup fields "link_url")) fun link_url =>
    andThen (decodeOptField decodeU64 (Json.lookup fields "num_reports")) fun num_reports =>
    andThen (decodeField decodeString (Json.lookup fields "parent_id")) fun parent_id =>
    andThen (decodeField decodeBool (Json.lookup fields "saved")) fun saved =>
    andThen (decodeField decodeI64 (Json.lookup fields "score")) fun score =>
    andThen (decodeField decodeBool (Json.lookup fields "score_hidden")) fun score_hidden =>
    andThen (decodeField decodeString (Json.lookup fields "subreddit")) fun subreddit =>
    andThen (decodeField decodeString (Json.lookup fields "subreddit_id")) fun subreddit_id =>
    andThen (decodeOptField decodeString (Json.lookup fields "distinguished")) fun distinguished =>
    andThen (decodeVotable fields) fun votable =>
    andThen (decodeCreated fields) fun created =>
    some (Comment.mk approved_by author author_flair_css_class author_flair_text
      banned_by body body_html special gilded likes link_author link_id link_title
      link_url num_reports parent_id saved score score_hidden subreddit subreddit_id
      distinguished votable created)
  | _ => none

/- The mutually recursive part of the data model of `types.rs`.  `Thing`
holds optional `id`/`name` and a flattened `ThingData` payload; `ThingData`
is the closed tagged union over the four known `kind` discriminators;
`Listing` recurses through `children : Vec<Thing>`; `Link` recurses through
`crosspost_parent_list : Option<Vec<Link>>`. -/
mutual
/-- `Thing` of `types.rs`: the generic envelope. -/
inductive Thing where
  | mk (id : Option String) (name : Option String) (data : ThingData)

/-- `ThingData` of `types.rs`: tagged by `kind`, payload under `data`. -/
inductive ThingData where
  | Listing (listing : Listing)
  | More (more : More)
  | Comment (comment : Comment)
  | Link (link : Link)

/-- `Listing` of `types.rs`: a pagination window over `Thing`s. -/
inductive Listing where
  | mk (before : Option String) (after : Option String) (modhash : String)
    (children : List Thing)

/-- `Link` of `types.rs` (`kind == "t3"`), all fields in declaration order. -/
inductive Link where
  | mk
    (author : String)
    (author_flair_css_class : Option String)
    (author_flair_text : Option String)
    (clicked : Bool)
    (domain : String)
    (hidden : Bool)
    (is_self : Bool)
    (likes : Option Bool)
    (link_flair_css_class : Option String)
    (link_flair_text : Option String)
    (locked : Bool)
    (media : Json)
    (media_embed : Json)
    (num_comments : Nat)
    (over_18 : Bool)
    (permalink : String)
    (saved : Bool)
    (score : Int)
    (selftext : String)
    (selftext_html : Option String)
    (subreddit : Option String)
    (subreddit_id : String)
    (thumbnail : Option String)
    (title : String)
    (url : String)
    (edited : Json)
    (distinguished : Option String)
    (stickied : Bool)
    (votable : Votable)
    (created : Created)
    (archived : Bool)
    (author_flair_template_id : Option String)
    (author_flair_text_color : Option String)
    (author_flair_type : Option String)
    (author_fullname : Option String)
    (author_patreon_flair : Option Bool)
    (can_gild : Bool)
    (can_mod_post : Bool)
    (contest_mode : Bool)
    (crosspost_parent_list : Option (List Link))
    (gilded : Nat)
    (hide_score : Bool)
    (id : String)
    (is_crosspostable : Bool)
    (is_meta : Bool)
    (is_original_content : Bool)
    (is_reddit_media_domain : Bool)
    (is_robot_indexable : Bool)
    (is_video : Bool)
    (link_flair_text_color : Option String)
    (link_flair_type : String)
    (media_only : Bool)
    (name : String)
    (no_follow : Bool)
    (num_crossposts : Nat)
    (parent_whitelist_status : Option String)
    (pinned : Bool)
    (post_hint : Option PostHint)
    (pwls : Option Nat)
    (quarantine : Bool)
    (send_replies : Bool)
    (spoiler : Bool)
    (subreddit_name_prefixed : String)
    (subreddit_subscribers : Nat)
    (subreddit_type : String)
    (suggested_sort : Option String)
    (thumbnail_height : Option Nat)
    (thumbnail_width : Option Nat)
    (visited : Bool)
    (whitelist_status : Option String)
    (wls : Option Nat)
end

/-- Field accessor for `Thing.id`. -/
def Thing.id : Thing → Option String
  | Thing.mk i _ _ => i

/-- Field accessor for `Thing.name`. -/
def Thing.name : Thing → Option String
  | Thing.mk _ n _ => n

/-- Field accessor for `Thing.data`. -/
def Thing.data : Thing → ThingData
  | Thing.mk _ _ d => d

/-- Field accessor for `Listing.children`. -/
def Listing.children : Listing → List Thing
  | Listing.mk _ _ _ c => c

/-- `ThingData::as_listing` of `types.rs`.  (The return type is left to be
inferred: inside the `ThingData` namespace a bare `Listing` annotation would
resolve to the constructor rather than the type.) -/
def ThingData.as_listing (d : ThingData) :=
  match d with
  | ThingData.Listing listing => some listing
  | _ => none

/-- `ThingData::as_listing_mut` of `types.rs` (mutability of the borrow is
not observable in a value model; the selection behaviour is identical). -/
def ThingData.as_listing_mut (d : ThingData) :=
  match d with
  | ThingData.Listing listing => some listing
  | _ => none

/-- `ThingData::into_listing` of `types.rs`. -/
def ThingData.into_listing (d : ThingData) :=
  match d with
  | ThingData.Listing listing => some listing
  | _ => none

/-- `ThingData::as_link` of `types.rs`. -/
def ThingData.as_link (d : ThingData) :=
  match d with
  | ThingData.Link link => some link
  | _ => none

/-- `ThingData::into_link` of `types.rs`. -/
def ThingData.into_link (d : ThingData) :=
  match d with
  | ThingData.Link link => some link
  | _ => none

/- The mutually recursive decoders.  Termination is by the size of the JSON
input, using `Json.lookup_sizeOf` at each descent through an object field. -/
mutual
/-- Decoder for `Thing`: optional `id` and `name`, then the flattened
`ThingData` from the same object. -/
def decodeThing (j : Json) : Option Thing :=
  match j with
  | Json.obj fields =>
    andThen (decodeOptField decodeString (Json.lookup fields "id")) fun id =>
    andThen (decodeOptField decodeString (Json.lookup fields "name")) fun name =>
    (decodeThingData fields).map (fun data => Thing.mk id name data)
  | _ => none
termination_by sizeOf j
decreasing_by
  simp
  all_goals omega

/-- Decoder for `ThingData`: adjacently tagged, `tag = "kind"`,
`content = "data"`.  Exactly the four known discriminators dispatch; any
other `kind` fails. -/
def decodeThingData (fields : List (String × Json)) : Option ThingData :=
  andThen (decodeField decodeString (Json.lookup fields "kind")) fun kind =>
  if kind = "Listing" then
    match h : Json.lookup fields "data" with
    | some d => (decodeListing d).map ThingData.Listing
    | none => none
  else if kind = "more" then
    match Json.lookup fields "data" with
    | some d => (decodeMore d).map ThingData.More
    | none => none
  else if kind = "t1" then
    match Json.lookup fields "data" with
    | some d => (decodeComment d).map ThingData.Comment
    | none => none
  else if kind = "t3" then
    match h : Json.lookup fields "data" with
    | some d => (decodeLink d).map ThingData.Link
    | none => none
  else none
termination_by sizeOf fields
decreasing_by
  all_goals
    have := Json.lookup_sizeOf h
    omega

/-- Decoder for `Listing`, fields in declaration order; `children` is a
required array decoded elementwise. -/
def decodeListing (j : Json) : Option Listing :=
  match j with
  | Json.obj fields =>
    andThen (decodeOptField decodeString (Json.lookup fields "before")) fun before =>
    andThen (decodeOptField decodeString (Json.lookup fields "after")) fun after =>
    andThen (decodeField decodeString (Json.lookup fields "modhash")) fun modhash =>
    (match h : Json.lookup fields "children" with
      | some (Json.arr xs) =>
        (decodeThingList xs).map (fun children => Listing.mk before after modhash children)
      | _ => none)
  | _ => none
termination_by sizeOf j
decreasing_by
  have := Json.lookup_sizeOf h
  simp at this ⊢
  omega

/-- Decode a list of JSON documents elementwise as `Thing`s (the `Vec<Thing>`
elements of a listing). -/
def decodeThingList (l : List Json) : Option (List Thing) :=
  match l with
  | [] => some []
  | x :: rest =>
    andThen (decodeThing x) fun t =>
    (decodeThingList rest).map (fun ts => t :: ts)
termination_by sizeOf l

/-- Decoder for `Link`, all fields in declaration order, the two flattened
fragments read from the same object, `crosspost_parent_list` decoded
recursively. -/
def decodeLink (j : Json) : Option Link :=
  match j with
  | Json.obj fields =>
    andThen (decodeField decodeString (Json.lookup fields "author")) fun author =>
    andThen (decodeOptField decodeString (Json.lookup fields "author_flair_css_class")) fun author_flair_css_class =>
    andThen (decodeOptField decodeString (Json.lookup fields "author_flair_text")) fun author_flair_text =>
    andThen (decodeField decodeBool (Json.lookup fields "clicked")) fun clicked =>
    andThen (decodeField decodeString (Json.lookup fields "domain")) fun domain =>
    andThen (decodeField decodeBool (Json.lookup fields "hidden")) fun hidden =>
    andThen (decodeField decodeBool (Json.lookup fields "is_self")) fun is_self =>
    andThen (decodeOptField decodeBool (Json.lookup fields "likes")) fun likes =>
    andThen (decodeOptField decodeString (Json.lookup fields "link_flair_css_class")) fun link_flair_css_class =>
    andThen (decodeOptField decodeString (Json.lookup fields "link_flair_text")) fun link_flair_text =>
    andThen (decodeField decodeBool (Json.lookup fields "locked")) fun locked =>
    andThen (decodeField decodeValue (Json.lookup fields "media")) fun media =>
    andThen (decodeField decodeValue (Json.lookup fields "media_embed")) fun media_embed =>
    andThen (decodeField decodeU64 (Json.lookup fields "num_comments")) fun num_comments =>
    andThen (decodeField decodeBool (Json.lookup fields "over_18")) fun over_18 =>
    andThen (decodeField decodeString (Json.lookup fields "permalink")) fun permalink =>
    andThen (decodeField decodeBool (Json.lookup fields "saved")) fun saved =>
    andThen (decodeField decodeI64 (Json.lookup fields "score")) fun score =>
    andThen (decodeField decodeString (Json.lookup fields "selftext")) fun selftext =>
    andThen (decodeOptField decodeString (Json.lookup fields "selftext_html")) fun selftext_html =>
    andThen (decodeOptField decodeString (Json.lookup fields "subreddit")) fun subreddit =>
    andThen (decodeField decodeString (Json.lookup fields "subreddit_id")) fun subreddit_id =>
    andThen (decodeOptField decodeString (Json.lookup fields "thumbnail")) fun thumbnail =>
    andThen (decodeField decodeString (Json.lookup fields "title")) fun title =>
    andThen (decodeField decodeString (Json.lookup fields "url")) fun url =>
    andThen (decodeField decodeValue (Json.lookup fields "edited")) fun edited =>
    andThen (decodeOptField decodeString (Json.lookup fields "distinguished")) fun distinguished =>
    andThen (decodeField decodeBool (Json.lookup fields "stickied")) fun stickied =>
    andThen (decodeVotable fields) fun votable =>
    andThen (decodeCreated fields) fun created =>
    andThen (decodeField decodeBool (Json.lookup fields "archived")) fun archived =>
    andThen (decodeOptField decodeString (Json.lookup fields "author_flair_template_id")) fun author_flair_template_id =>
    andThen (decodeOptField decodeString (Json.lookup fields "author_flair_text_color")) fun author_flair_text_color =>
    andThen (decodeOptField decodeString (Json.lookup fields "author_flair_type")) fun author_flair_type =>
    andThen (decodeOptField decodeString (Json.lookup fields "author_fullname")) fun author_fullname =>
    andThen (decodeOptField decodeBool (Json.lookup fields "author_patreon_flair")) fun author_patreon_flair =>
    andThen (decodeField decodeBool (Json.lookup fields "can_gild")) fun can_gild =>
    andThen (decodeField decodeBool (Json.lookup fields "can_mod_post")) fun can_mod_post =>
    andThen (decodeField decodeBool (Json.lookup fields "contest_mode")) fun contest_mode =>
    andThen ((match h : Json.lookup fields "crosspost_parent_list" with
      | none => some none
      | some Json.null => some none
      | some (Json.arr xs) => (decodeLinkList xs).map some
      | some _ => none : Option (Option (List Link)))) fun crosspost_parent_list =>
    andThen (decodeField decodeU64 (Json.lookup fields "gilded")) fun gilded =>
    andThen (decodeField decodeBool (Json.lookup fields "hide_score")) fun hide_score =>
    andThen (decodeField decodeString (Json.lookup fields "id")) fun id =>
    andThen (decodeField decodeBool (Json.lookup fields "is_crosspostable")) fun is_crosspostable =>
    andThen (decodeField decodeBool (Json.lookup fields "is_meta")) fun is_meta =>
    andThen (decodeField decodeBool (Json.lookup fields "is_original_content")) fun is_original_content =>
    andThen (decodeField decodeBool (Json.lookup fields "is_reddit_media_domain")) fun is_reddit_media_domain =>
    andThen (decodeField decodeBool (Json.lookup fields "is_robot_indexable")) fun is_robot_indexable =>
    andThen (decodeField decodeBool (Json.lookup fields "is_video")) fun is_video =>
    andThen (decodeOptField decodeString (Json.lookup fields "link_flair_text_color")) fun link_flair_text_color =>
    andThen (decodeField decodeString (Json.lookup fields "link_flair_type")) fun link_flair_type =>
    andThen (decodeField decodeBool (Json.lookup fields "media_only")) fun media_only =>
    andThen (decodeField decodeString (Json.lookup fields "name")) fun name =>
    andThen (decodeField decodeBool (Json.lookup fields "no_follow")) fun no_follow =>
    andThen (decodeField decodeU64 (Json.lookup fields "num_crossposts")) fun num_crossposts =>
    andThen (decodeOptField decodeString (Json.lookup fields "parent_whitelist_status")) fun parent_whitelist_status =>
    andThen (decodeField decodeBool (Json.lookup fields "pinned")) fun pinned =>
    andThen (decodeOptField decodePostHint (Json.lookup fields "post_hint")) fun post_hint =>
    andThen (decodeOptField decodeU64 (Json.lookup fields "pwls")) fun pwls =>
    andThen (decodeField decodeBool (Json.lookup fields "quarantine")) fun quarantine =>
    andThen (decodeField decodeBool (Json.lookup fields "send_replies")) fun send_replies =>
    andThen (decodeField decodeBool (Json.lookup fields "spoiler")) fun spoiler =>
    andThen (decodeField decodeString (Json.lookup fields "subreddit_name_prefixed")) fun subreddit_name_prefixed =>
    andThen (decodeField decodeU64 (Json.lookup fields "subreddit_subscribers")) fun subreddit_subscribers =>
    andThen (decodeField decodeString (Json.lookup fields "subreddit_type")) fun subreddit_type =>
    andThen (decodeOptField decodeString (Json.lookup fields "suggested_sort")) fun suggested_sort =>
    andThen (decodeOptField decodeU64 (Json.lookup fields "thumbnail_height")) fun thumbnail_height =>
    andThen (decodeOptField decodeU64 (Json.lookup fields "thumbnail_width")) fun thumbnail_width =>
    andThen (decodeField decodeBool (Json.lookup fields "visited")) fun visited =>
    andThen (decodeOptField decodeString (Json.lookup fields "whitelist_status")) fun whitelist_status =>
    andThen (decodeOptField decodeU64 (Json.lookup fields "wls")) fun wls =>
    some (Link.mk author author_flair_css_class author_flair_text clicked domain
      hidden is_self likes link_flair_css_class link_flair_text locked media
      media_embed num_comments over_18 permalink saved score selftext
      selftext_html subreddit subreddit_id thumbnail title url edited
      distinguished stickied votable created archived author_flair_template_id
      author_flair_text_color author_flair_type author_fullname
      author_patreon_flair can_gild can_mod_post contest_mode
      crosspost_parent_list gilded hide_score id is_crosspostable is_meta
      is_original_content is_reddit_media_domain is_robot_indexable is_video
      link_flair_text_color link_flair_type media_only name no_follow
      num_crossposts parent_whitelist_status pinned post_hint pwls quarantine
      send_replies spoiler subreddit_name_prefixed subreddit_subscribers
      subreddit_type suggested_sort thumbnail_height thumbnail_width visited
      whitelist_status wls)
  | _ => none
termination_by sizeOf j
decreasing_by
  have := Json.lookup_sizeOf h
  simp at this ⊢
  omega

/-- Decode a list of JSON documents elementwise as `Link`s (the crosspost
parent list). -/
def decodeLinkList (l : List Json) : Option (List Link) :=
  match l with
  | [] => some []
  | x :: rest =>
    andThen (decodeLink x) fun t =>
    (decodeLinkList rest).map (fun ts => t :: ts)
termination_by sizeOf l
end

/-- Decode a top-level JSON document as a `Vec<Thing>` (the shape of a
comment-tree response): the document must be an array, decoded elementwise. -/
def decodeThingVec (j : Json) : Option (List Thing) :=
  match j with
  | Json.arr xs => decodeThingList xs
  | _ => none

/-!
Error model.  `error.rs` in the sources is the hyper-generation error enum
(`RedditError`), embedded below for its `is_subreddit_not_found` predicate.
The reqwest-generation `Error` enum consumed by `client.rs` is not among the
sources; it is modelled from the spec's error taxonomy together with its
uses in `client.rs` (`Error::SubredditNotFound`, `Error::Json { data, error }`,
and a `From<reqwest::Error>` conversion reached through `?`).
-/

/-- Model of the external `serde_json::Error` diagnostic: line, column and
message.  The concrete position values are computed by the external crate
from the source text, which the tree model abstracts; the repository-level
claims depend only on which error variant the diagnostic is wrapped in and
on what accompanies it. -/
structure SerdeError where
  line : Nat
  column : Nat
  message : String

/-- The one abstract serde diagnostic used where a decode fails. -/
def serdeFailure : SerdeError := SerdeError.mk 0 0 "data did not match any variant"

/-- Model of the external `reqwest::Error` as far as `client.rs` observes
it: connection-level failures (including exceeding the redirect limit),
`error_for_status` failures, and body-decode failures from
`Response::json`. -/
inductive ReqwestError where
  | connect
  | status (code : Nat)
  | decode (e : SerdeError)

/-- Modelled from the spec: the `Error` enum of the reqwest generation of
`error.rs` (missing from the sources).  Variants reconstructed from the
spec's error taxonomy (transport error surfaced verbatim; http status
error; resource not found; decode error carrying the raw document and the
diagnostic) and from the constructions in `client.rs`. -/
inductive Error where
  | Reqwest (e : ReqwestError)
  | SubredditNotFound
  | Json (data : Json) (error : SerdeError)

/-- The raw document attached to an error, when one is: only the decode
error variant of the modelled `Error` carries the offending document.  (The
return type is inferred; inside the `Error` namespace a bare `Json`
annotation would resolve to the constructor.) -/
def Error.documentOf (e : Error) :=
  match e with
  | Error.Json data _ => some data
  | _ => none

/-- `hyper::Error` of the hyper generation, abstracted to its message. -/
structure HyperError where
  message : String

/-- `http::uri::InvalidUri` of the hyper generation, abstracted. -/
structure InvalidUri where
  message : String

/-- `RedditError` of `error.rs` (hyper generation), variant for variant:
transport error, uri parse error, invalid status, subreddit not found, and
a json error optionally carrying the bytes that failed to parse. -/
inductive RedditError where
  | Hyper (e : HyperError)
  | InvalidUri (e : InvalidUri)
  | InvalidStatus (status : Nat)
  | SubredditNotFound
  | Json (e : SerdeError) (data : Option (List Nat))

/-- `RedditError::is_subreddit_not_found` of `error.rs`: true on the
`SubredditNotFound` variant, false otherwise. -/
def RedditError.is_subreddit_not_found (e : RedditError) : Bool :=
  match e with
  | RedditError.SubredditNotFound => true
  | _ => false

/-!
HTTP transport model.  `client.rs` delegates to reqwest, whose default
redirect policy follows up to ten redirects (301/302/303/307/308 with a
`Location` header) before the response is handed back; `Response::url()` is
the url of the final request of that chain.  A server is a partial map from
urls to responses (`none` = connection failure).
-/

/-- One HTTP response as served for a single url: status code, optional
`Location` header, and the (already parsed) body document. -/
structure HttpResponse where
  status : Nat
  location : Option String
  body : Json

/-- The final response handed back by the transport: the url of the last
request of the redirect chain, with that response's status and body. -/
structure FinalResponse where
  url : String
  status : Nat
  body : Json

/-- Redirect statuses followed by reqwest's default policy. -/
def isRedirectStatus (s : Nat) : Bool :=
  s = 301 || s = 302 || s = 303 || s = 307 || s = 308

/-- Follow redirects through the server map, decrementing the remaining
request budget; a redirect status without a `Location` header is returned
as the final response (the policy has nothing to follow). -/
def followRedirects (server : String → Option HttpResponse) :
    Nat → String → Option FinalResponse
  | 0, _ => none
  | fuel + 1, url =>
    match server url with
    | none => none
    | some r =>
      if isRedirectStatus r.status then
        match r.location with
        | some loc => followRedirects server fuel loc
        | none => some (FinalResponse.mk url r.status r.body)
      else some (FinalResponse.mk url r.status r.body)

/-- Issue one request through the transport: the initial request plus at
most ten followed redirects (reqwest's default limit). -/
def send (server : String → Option HttpResponse) (url : String) : Option FinalResponse :=
  followRedirects server 11 url

/-- The search url prefix that reddit redirects to when a subreddit does
not exist (`SEARCH_URL` in `client.rs`). -/
def SEARCH_URL : String := "https://www.reddit.com/subreddits/search.json?"

/-- Model of `str::starts_with` as used by `client.rs` on the final url.
(Defined over the character lists so that it evaluates by reduction.) -/
def strStartsWith (s p : String) : Bool := p.data.isPrefixOf s.data

/-- The listing endpoint url built by `Client::get_subreddit`. -/
def subredditUrl (subreddit : String) (num_posts : Nat) : String :=
  "https://www.reddit.com/r/" ++ subreddit ++ ".json?limit=" ++ toString num_posts

/-- The comments endpoint url built by `Client::get_post`. -/
def postUrl (subreddit : String) (post_id : String) : String :=
  "https://www.reddit.com/r/" ++ subreddit ++ "/comments/" ++ post_id ++ ".json"

/-- `Client::get_subreddit` of `client.rs`: send the request (the transport
follows redirects), fail on a client/server error status
(`error_for_status`), return `SubredditNotFound` when the final url starts
with the search prefix, otherwise decode the body as a `Thing`, attaching
the body to the error on decode failure. -/
def get_subreddit (server : String → Option HttpResponse) (subreddit : String)
    (num_posts : Nat) : Except Error Thing :=
  match send server (subredditUrl subreddit num_posts) with
  | none => Except.error (Error.Reqwest ReqwestError.connect)
  | some res =>
    if 400 ≤ res.status ∧ res.status ≤ 599 then
      Except.error (Error.Reqwest (ReqwestError.status res.status))
    else if strStartsWith res.url SEARCH_URL then
      Except.error Error.SubredditNotFound
    else
      match decodeThing res.body with
      | some thing => Except.ok thing
      | none => Except.error (Error.Json res.body serdeFailure)

/-- `Client::get_post` of `client.rs`: send the request, fail on a
client/server error status, then decode the body as a `Vec<Thing>` through
`Response::json`; a decode failure surfaces as the wrapped reqwest decode
error (no url check, and the body is not attached). -/
def get_post (server : String → Option HttpResponse) (subreddit : String)
    (post_id : String) : Except Error (List Thing) :=
  match send server (postUrl subreddit post_id) with
  | none => Except.error (Error.Reqwest ReqwestError.connect)
  | some res =>
    if 400 ≤ res.status ∧ res.status ≤ 599 then
      Except.error (Error.Reqwest (ReqwestError.status res.status))
    else
      match decodeThingVec res.body with
      | some things => Except.ok things
      | none => Except.error (Error.Reqwest (ReqwestError.decode serdeFailure))

/-!
Helper lemmas about the decode combinators, shared by the claim proofs
below.
-/

theorem andThen_congr (x : Option α) (f g : α → Option β) (h : ∀ a, f a = g a) :
    andThen x f = andThen x g := by
  cases x <;> simp [andThen, h]

/-- Unfolding lemma: with `kind = "Listing"` and a `data` document present,
the tagged-union decoder is the `Listing` payload decoder. -/
theorem decodeThingData_listing (fields : List (String × Json)) (d : Json)
    (hk : Json.lookup fields "kind" = some (Json.str "Listing"))
    (hd : Json.lookup fields "data" = some d) :
    decodeThingData fields = (decodeListing d).map ThingData.Listing := by
  simp only [decodeThingData, hk, decodeField, decodeString, andThen_some, reduceIte]
  split
  · rename_i d' heq
    rw [hd] at heq
    simp at heq
    subst heq
    rfl
  · simp_all

/-- Unfolding lemma: with a `children` array present, the `Listing` decoder
is the field-by-field chain over that array. -/
theorem decodeListing_children (fields : List (String × Json)) (xs : List Json)
    (hc : Json.lookup fields "children" = some (Json.arr xs)) :
    decodeListing (Json.obj fields) =
      andThen (decodeOptField decodeString (Json.lookup fields "before")) fun before =>
      andThen (decodeOptField decodeString (Json.lookup fields "after")) fun after =>
      andThen (decodeField decodeString (Json.lookup fields "modhash")) fun modhash =>
      (decodeThingList xs).map (fun children => Listing.mk before after modhash children) := by
  simp only [decodeListing]
  refine andThen_congr _ _ _ fun before => ?_
  refine andThen_congr _ _ _ fun after => ?_
  refine andThen_congr _ _ _ fun modhash => ?_
  split
  · rename_i xs0 heq
    rw [hc] at heq
    simp at heq
    subst heq
    rfl
  · simp_all

/-!
The claims.
-/

/-- C9: the error type's predicate for the resource-not-found condition
returns true exactly when the error value is the `SubredditNotFound`
variant and false for every other variant. -/
theorem is_subreddit_not_found_iff (e : RedditError) :
    e.is_subreddit_not_found = true ↔ e = RedditError.SubredditNotFound := by
  cases e <;> simp [RedditError.is_subreddit_not_found]

/-- C10: the `ThingData` accessors `as_listing`, `as_listing_mut` and
`into_listing` return `some` exactly on the `Listing` variant (returning
that listing), and `as_link`/`into_link` return `some` exactly on the
`Link` variant; in all other cases they return `none`. -/
theorem thingData_accessors_characterize (d : ThingData) :
    (∀ l, d.as_listing = some l ↔ d = ThingData.Listing l) ∧
    (∀ l, d.as_listing_mut = some l ↔ d = ThingData.Listing l) ∧
    (∀ l, d.into_listing = some l ↔ d = ThingData.Listing l) ∧
    (∀ l, d.as_link = some l ↔ d = ThingData.Link l) ∧
    (∀ l, d.into_link = some l ↔ d = ThingData.Link l) := by
  cases d <;> simp [ThingData.as_listing, ThingData.as_listing_mut,
    ThingData.into_listing, ThingData.as_link, ThingData.into_link]

/-- C8: a `Listing` document whose `children` field is the empty array,
and whose other fields decode, decodes successfully to a listing with an
empty children sequence. -/
theorem decodeListing_empty_children (fields : List (String × Json))
    (b a : Option String) (m : String)
    (hb : decodeOptField decodeString (Json.lookup fields "before") = some b)
    (ha : decodeOptField decodeString (Json.lookup fields "after") = some a)
    (hm : decodeField decodeString (Json.lookup fields "modhash") = some m)
    (hc : Json.lookup fields "children" = some (Json.arr [])) :
    decodeListing (Json.obj fields) = some (Listing.mk b a m []) := by
  simp only [decodeListing, hb, ha, hm, andThen_some]
  split
  · rename_i xs heq
    rw [hc] at heq
    simp at heq
    subst heq
    simp [decodeThingList]
  · simp_all

/-- C8 witness: a concrete listing document with empty children decodes. -/
theorem decodeListing_empty_children_witness :
    decodeOptField decodeString (Json.lookup [("after", Json.str "t3_x"),
      ("modhash", Json.str "mh"), ("children", Json.arr [])] "before") = some none ∧
    decodeListing (Json.obj [("after", Json.str "t3_x"),
      ("modhash", Json.str "mh"), ("children", Json.arr [])]) =
      some (Listing.mk none (some "t3_x") "mh" []) :=
  ⟨rfl, decodeListing_empty_children [("after", Json.str "t3_x"),
    ("modhash", Json.str "mh"), ("children", Json.arr [])] none (some "t3_x") "mh"
    rfl rfl rfl rfl⟩

/-- C2: a document whose `kind` discriminator is none of the four known
values fails to decode as a `Thing` (no partially populated variant is
possible: the decoder returns nothing at all). -/
theorem decodeThing_unknown_kind (fields : List (String × Json)) (k : String)
    (hk : Json.lookup fields "kind" = some (Json.str k))
    (h1 : k ≠ "Listing") (h2 : k ≠ "more") (h3 : k ≠ "t1") (h4 : k ≠ "t3") :
    decodeThing (Json.obj fields) = none := by
  have hdata : decodeThingData fields = none := by
    simp only [decodeThingData, hk]
    simp [decodeField, decodeString, andThen_some, h1, h2, h3, h4]
  simp only [decodeThing, hdata]
  simp [andThen_const_none]

/-- C2 witness: a `"t2"` (account) document fails to decode. -/
theorem decodeThing_unknown_kind_witness :
    Json.lookup [("kind", Json.str "t2"), ("data", Json.obj [])] "kind" =
      some (Json.str "t2") ∧
    decodeThing (Json.obj [("kind", Json.str "t2"), ("data", Json.obj [])]) = none :=
  ⟨rfl, decodeThing_unknown_kind [("kind", Json.str "t2"), ("data", Json.obj [])] "t2"
    rfl (by decide) (by decide) (by decide) (by decide)⟩

/-- The optional-string field decoder yields `none` exactly when the field
was absent or null. -/
theorem decodeOptField_str_none_iff {o : Option Json} {r : Option String}
    (h : decodeOptField decodeString o = some r) :
    r = none ↔ (o = none ∨ o = some Json.null) := by
  match o with
  | none =>
    simp [decodeOptField] at h
    subst h
    simp
  | some Json.null =>
    simp [decodeOptField] at h
    subst h
    simp
  | some (Json.bool b) => simp [decodeOptField, decodeString] at h
  | some (Json.num n) => simp [decodeOptField, decodeString] at h
  | some (Json.str s) =>
    simp [decodeOptField, decodeString] at h
    subst h
    simp
  | some (Json.arr xs) => simp [decodeOptField, decodeString] at h
  | some (Json.obj fs) => simp [decodeOptField, decodeString] at h

/-- C5 amended: for every successfully decoded `Thing`, the optional `id`
and `name` mirror the document independently of the kind: each is `none`
exactly when the corresponding field is absent or null. -/
theorem decodeThing_id_name_mirror_doc (fields : List (String × Json)) (t : Thing)
    (h : decodeThing (Json.obj fields) = some t) :
    decodeOptField decodeString (Json.lookup fields "id") = some t.id ∧
    decodeOptField decodeString (Json.lookup fields "name") = some t.name ∧
    (t.id = none ↔ (Json.lookup fields "id" = none ∨ Json.lookup fields "id" = some Json.null)) ∧
    (t.name = none ↔ (Json.lookup fields "name" = none ∨ Json.lookup fields "name" = some Json.null)) := by
  simp only [decodeThing, andThen_eq_some] at h
  obtain ⟨id0, hid, name0, hname, h⟩ := h
  rw [Option.map_eq_some'] at h
  obtain ⟨d, hd, ht⟩ := h
  subst ht
  refine ⟨by simpa [Thing.id] using hid, by simpa [Thing.name] using hname, ?_, ?_⟩
  · simpa [Thing.id] using decodeOptField_str_none_iff hid
  · simpa [Thing.name] using decodeOptField_str_none_iff hname

/-- C5 counterexample: a `Listing` document carrying both `id` and `name`
decodes successfully, with the fields populated. -/
theorem listing_with_id_name_decodes :
    Json.lookup [("id", Json.str "8xwlg"), ("name", Json.str "t9_q"),
      ("kind", Json.str "Listing"),
      ("data", Json.obj [("modhash", Json.str "mh"), ("children", Json.arr [])])]
      "kind" = some (Json.str "Listing") ∧
    decodeThing (Json.obj [("id", Json.str "8xwlg"), ("name", Json.str "t9_q"),
      ("kind", Json.str "Listing"),
      ("data", Json.obj [("modhash", Json.str "mh"), ("children", Json.arr [])])]) =
      some (Thing.mk (some "8xwlg") (some "t9_q")
        (ThingData.Listing (Listing.mk none none "mh" []))) := by
  constructor
  · rfl
  · have h1 : decodeThingData [("id", Json.str "8xwlg"), ("name", Json.str "t9_q"),
        ("kind", Json.str "Listing"),
        ("data", Json.obj [("modhash", Json.str "mh"), ("children", Json.arr [])])] =
        some (ThingData.Listing (Listing.mk none none "mh" [])) := by
      rw [decodeThingData_listing [("id", Json.str "8xwlg"), ("name", Json.str "t9_q"),
        ("kind", Json.str "Listing"),
        ("data", Json.obj [("modhash", Json.str "mh"), ("children", Json.arr [])])]
        (Json.obj [("modhash", Json.str "mh"), ("children", Json.arr [])]) rfl rfl]
      rw [decodeListing_children [("modhash", Json.str "mh"), ("children", Json.arr [])] [] rfl]
      simp only [decodeThingList, decodeOptField, decodeField, decodeString, Json.lookup,
        String.reduceEq, reduceIte, andThen_some, Option.map_some']
    simp only [decodeThing, Json.lookup, String.reduceEq, reduceIte, decodeOptField,
      decodeString, Option.map_some', andThen_some, h1]

/-- C5 witness for the amended theorem: a `Listing` document without `id`
decodes with `id = none`, which is absent in the document. -/
theorem decodeThing_id_name_mirror_doc_witness :
    decodeThing (Json.obj [("kind", Json.str "Listing"),
      ("data", Json.obj [("modhash", Json.str "mh"), ("children", Json.arr [])])]) =
      some (Thing.mk none none (ThingData.Listing (Listing.mk none none "mh" []))) ∧
    ((Thing.mk none none (ThingData.Listing (Listing.mk none none "mh" []))).id = none ↔
      (Json.lookup [("kind", Json.str "Listing"),
        ("data", Json.obj [("modhash", Json.str "mh"), ("children", Json.arr [])])] "id" = none ∨
       Json.lookup [("kind", Json.str "Listing"),
        ("data", Json.obj [("modhash", Json.str "mh"), ("children", Json.arr [])])] "id" =
        some Json.null)) := by
  have hEval : decodeThing (Json.obj [("kind", Json.str "Listing"),
      ("data", Json.obj [("modhash", Json.str "mh"), ("children", Json.arr [])])]) =
      some (Thing.mk none none (ThingData.Listing (Listing.mk none none "mh" []))) := by
    have h1 : decodeThingData [("kind", Json.str "Listing"),
        ("data", Json.obj [("modhash", Json.str "mh"), ("children", Json.arr [])])] =
        some (ThingData.Listing (Listing.mk none none "mh" [])) := by
      rw [decodeThingData_listing [("kind", Json.str "Listing"),
        ("data", Json.obj [("modhash", Json.str "mh"), ("children", Json.arr [])])]
        (Json.obj [("modhash", Json.str "mh"), ("children", Json.arr [])]) rfl rfl]
      rw [decodeListing_children [("modhash", Json.str "mh"), ("children", Json.arr [])] [] rfl]
      simp only [decodeThingList, decodeOptField, decodeField, decodeString, Json.lookup,
        String.reduceEq, reduceIte, andThen_some, Option.map_some']
    simp only [decodeThing, Json.lookup, String.reduceEq, reduceIte, decodeOptField,
      decodeString, Option.map_some', andThen_some, h1]
  exact ⟨hEval, (decodeThing_id_name_mirror_doc _ _ hEval).2.2.1⟩

theorem decodePostHint_unknown (s : String) (h1 : s ≠ "image") (h2 : s ≠ "link")
    (h3 : s ≠ "hosted:video") (h4 : s ≠ "rich:video") (h5 : s ≠ "self")
    (h6 : s ≠ "gallery") : decodePostHint (Json.str s) = none := by
  simp [decodePostHint, h1, h2, h3, h4, h5, h6]

/-- C7: a `Link` document whose `post_hint` field holds a string other than
the six known classifications fails to decode (no default is substituted). -/
theorem decodeLink_unknown_post_hint (fields : List (String × Json)) (s : String)
    (hp : Json.lookup fields "post_hint" = some (Json.str s))
    (h1 : s ≠ "image") (h2 : s ≠ "link") (h3 : s ≠ "hosted:video")
    (h4 : s ≠ "rich:video") (h5 : s ≠ "self") (h6 : s ≠ "gallery") :
    decodeLink (Json.obj fields) = none := by
  have hstep : decodeOptField decodePostHint (Json.lookup fields "post_hint") = none := by
    rw [hp]
    simp [decodeOptField, decodePostHint_unknown s h1 h2 h3 h4 h5 h6]
  simp only [decodeLink, hstep]
  simp only [andThen_none, andThen_const_none]

/-- C7 witness: a `post_hint` of `"video"` makes the enclosing link fail to
decode. -/
theorem decodeLink_unknown_post_hint_witness :
    Json.lookup [("post_hint", Json.str "video")] "post_hint" =
      some (Json.str "video") ∧
    decodeLink (Json.obj [("post_hint", Json.str "video")]) = none :=
  ⟨rfl, decodeLink_unknown_post_hint [("post_hint", Json.str "video")] "video" rfl
    (by decide) (by decide) (by decide) (by decide) (by decide) (by decide)⟩

/-- Characterization of `get_subreddit` on the decode path: once the
transport has delivered a final response whose status is no error and whose
url is not the search page, the result is the decode of the body, with the
body attached to the error on decode failure. -/
theorem get_subreddit_decode_path (server : String → Option HttpResponse)
    (s : String) (n : Nat) (url : String) (st : Nat) (body : Json)
    (hsend : send server (subredditUrl s n) = some (FinalResponse.mk url st body))
    (hst : ¬(400 ≤ st ∧ st ≤ 599))
    (hss : strStartsWith url SEARCH_URL = false) :
    get_subreddit server s n =
      match decodeThing body with
      | some thing => Except.ok thing
      | none => Except.error (Error.Json body serdeFailure) := by
  simp [get_subreddit, hsend, hst, hss]

/-- Characterization of `get_post` on the decode path: once the transport
has delivered a final response whose status is no error, the result is the
decode of the body as a sequence of things; no url check takes place and a
decode failure surfaces as the wrapped reqwest error. -/
theorem get_post_decode_path (server : String → Option HttpResponse)
    (s p : String) (url : String) (st : Nat) (body : Json)
    (hsend : send server (postUrl s p) = some (FinalResponse.mk url st body))
    (hst : ¬(400 ≤ st ∧ st ≤ 599)) :
    get_post server s p =
      match decodeThingVec body with
      | some things => Except.ok things
      | none => Except.error (Error.Reqwest (ReqwestError.decode serdeFailure)) := by
  simp [get_post, hsend, hst]

/-- A minimal well-formed listing body (a `Listing` thing with no children). -/
def listingBodyDoc : Json :=
  Json.obj [("kind", Json.str "Listing"),
    ("data", Json.obj [("modhash", Json.str "mh"), ("children", Json.arr [])])]

theorem listingBodyDoc_decodes :
    decodeThing listingBodyDoc =
      some (Thing.mk none none (ThingData.Listing (Listing.mk none none "mh" []))) := by
  have h1 : decodeThingData [("kind", Json.str "Listing"),
      ("data", Json.obj [("modhash", Json.str "mh"), ("children", Json.arr [])])] =
      some (ThingData.Listing (Listing.mk none none "mh" [])) := by
    rw [decodeThingData_listing [("kind", Json.str "Listing"),
      ("data", Json.obj [("modhash", Json.str "mh"), ("children", Json.arr [])])]
      (Json.obj [("modhash", Json.str "mh"), ("children", Json.arr [])]) rfl rfl]
    rw [decodeListing_children [("modhash", Json.str "mh"), ("children", Json.arr [])] [] rfl]
    simp only [decodeThingList, decodeOptField, decodeField, decodeString, Json.lookup,
      String.reduceEq, reduceIte, andThen_some, Option.map_some']
  simp only [listingBodyDoc, decodeThing, Json.lookup, String.reduceEq, reduceIte,
    decodeOptField, decodeString, Option.map_some', andThen_some, h1]

/-- A server that 302-redirects the listing request to a non-search
location, which then answers 200 with a well-formed listing body. -/
def redirectElsewhereServer : String → Option HttpResponse := fun url =>
  if url = subredditUrl "gfdghfj" 25 then
    some (HttpResponse.mk 302 (some "https://example.com/elsewhere") Json.null)
  else if url = "https://example.com/elsewhere" then
    some (HttpResponse.mk 200 none listingBodyDoc)
  else none

/-- C1 counterexample: a 302 whose Location is not the search prefix is not
classified as `HttpError(302)`: the transport follows it and the fetch
succeeds on the redirect target's body. -/
theorem get_subreddit_302_elsewhere_not_http_error :
    redirectElsewhereServer (subredditUrl "gfdghfj" 25) =
      some (HttpResponse.mk 302 (some "https://example.com/elsewhere") Json.null) ∧
    strStartsWith "https://example.com/elsewhere" SEARCH_URL = false ∧
    get_subreddit redirectElsewhereServer "gfdghfj" 25 =
      Except.ok (Thing.mk none none (ThingData.Listing (Listing.mk none none "mh" []))) ∧
    get_subreddit redirectElsewhereServer "gfdghfj" 25 ≠
      Except.error (Error.Reqwest (ReqwestError.status 302)) := by
  have hok : get_subreddit redirectElsewhereServer "gfdghfj" 25 =
      Except.ok (Thing.mk none none (ThingData.Listing (Listing.mk none none "mh" []))) := by
    have h1 := get_subreddit_decode_path redirectElsewhereServer "gfdghfj" 25
      "https://example.com/elsewhere" 200 listingBodyDoc rfl (by decide) (by decide)
    rw [listingBodyDoc_decodes] at h1
    exact h1
  exact ⟨rfl, by decide, hok, by rw [hok]; simp⟩

/-- C1 amended: classification happens after the transport follows the
redirect chain; a 302 whose Location starts with the search prefix ends at
the search page and is classified `SubredditNotFound`, while a 302 to any
other location is followed and the final 200 response is decoded (it is not
reported as `HttpError(302)`). -/
theorem get_subreddit_redirect_classification
    (server : String → Option HttpResponse) (s : String) (n : Nat)
    (loc : String) (b : Json) (r2 : HttpResponse)
    (h0 : server (subredditUrl s n) = some (HttpResponse.mk 302 (some loc) b))
    (h1 : server loc = some r2) (h2 : r2.status = 200) :
    (strStartsWith loc SEARCH_URL = true →
      get_subreddit server s n = Except.error Error.SubredditNotFound) ∧
    (strStartsWith loc SEARCH_URL = false →
      get_subreddit server s n =
        match decodeThing r2.body with
        | some thing => Except.ok thing
        | none => Except.error (Error.Json r2.body serdeFailure)) := by
  obtain ⟨st, lo, bo⟩ := r2
  have hst : st = 200 := h2
  subst hst
  have hsend : send server (subredditUrl s n) = some (FinalResponse.mk loc 200 bo) := by
    simp [send, followRedirects, h0, h1, isRedirectStatus]
  constructor
  · intro hs
    simp [get_subreddit, hsend, hs]
  · intro hs
    simp [get_subreddit, hsend, hs]

/-- A server that 302-redirects the listing request to the search page. -/
def searchRedirectServer : String → Option HttpResponse := fun url =>
  if url = subredditUrl "gfdghfj" 25 then
    some (HttpResponse.mk 302 (some (SEARCH_URL ++ "q=gfdghfj")) Json.null)
  else if url = SEARCH_URL ++ "q=gfdghfj" then
    some (HttpResponse.mk 200 none (Json.obj []))
  else none

/-- C1 witness for the amended theorem: the search redirect is classified
as `SubredditNotFound`. -/
theorem get_subreddit_redirect_classification_witness :
    strStartsWith (SEARCH_URL ++ "q=gfdghfj") SEARCH_URL = true ∧
    get_subreddit searchRedirectServer "gfdghfj" 25 =
      Except.error Error.SubredditNotFound :=
  ⟨by decide,
    (get_subreddit_redirect_classification searchRedirectServer "gfdghfj" 25
      (SEARCH_URL ++ "q=gfdghfj") Json.null (HttpResponse.mk 200 none (Json.obj []))
      rfl rfl rfl).1 (by decide)⟩

/-- Elementwise decoding preserves the length of the array. -/
theorem decodeThingList_length (xs : List Json) (ts : List Thing)
    (h : decodeThingList xs = some ts) : ts.length = xs.length := by
  induction xs generalizing ts with
  | nil =>
    simp [decodeThingList] at h
    subst h
    rfl
  | cons x rest ih =>
    simp only [decodeThingList, andThen_eq_some] at h
    obtain ⟨t, ht, h⟩ := h
    rw [Option.map_eq_some'] at h
    obtain ⟨ts0, hts0, hts⟩ := h
    subst hts
    simp [ih ts0 hts0]

/-- A server that 302-redirects the comments request to the search page,
which answers 200 with an empty comment-tree body. -/
def postSearchRedirectServer : String → Option HttpResponse := fun url =>
  if url = postUrl "gfdghfj" "abc" then
    some (HttpResponse.mk 302 (some (SEARCH_URL ++ "q=gfdghfj")) Json.null)
  else if url = SEARCH_URL ++ "q=gfdghfj" then
    some (HttpResponse.mk 200 none (Json.arr []))
  else none

/-- C3 counterexample: the comment-tree fetch does not perform the
search-redirect classification: a request whose redirect chain ends at the
search page decodes the search page's body instead of yielding
`SubredditNotFound`. -/
theorem get_post_search_redirect_not_classified :
    send postSearchRedirectServer (postUrl "gfdghfj" "abc") =
      some (FinalResponse.mk (SEARCH_URL ++ "q=gfdghfj") 200 (Json.arr [])) ∧
    strStartsWith (SEARCH_URL ++ "q=gfdghfj") SEARCH_URL = true ∧
    get_post postSearchRedirectServer "gfdghfj" "abc" = Except.ok [] ∧
    get_post postSearchRedirectServer "gfdghfj" "abc" ≠
      Except.error Error.SubredditNotFound := by
  have hvec : decodeThingVec (Json.arr []) = some [] := by
    simp [decodeThingVec, decodeThingList]
  have hok : get_post postSearchRedirectServer "gfdghfj" "abc" = Except.ok [] := by
    have h1 := get_post_decode_path postSearchRedirectServer "gfdghfj" "abc"
      (SEARCH_URL ++ "q=gfdghfj") 200 (Json.arr []) rfl (by decide)
    rw [hvec] at h1
    exact h1
  exact ⟨rfl, by decide, hok, by rw [hok]; simp⟩

/-- C3 amended: `get_post` shares the transport and the status
classification with `get_subreddit`, but omits the search-redirect check:
it can never return `SubredditNotFound`, and a client/server error status
is classified exactly as in the listing path. -/
theorem get_post_omits_not_found_check (server : String → Option HttpResponse)
    (s p : String) :
    (get_post server s p ≠ Except.error Error.SubredditNotFound) ∧
    (∀ url st body, send server (postUrl s p) = some (FinalResponse.mk url st body) →
      400 ≤ st → st ≤ 599 →
      get_post server s p = Except.error (Error.Reqwest (ReqwestError.status st))) := by
  constructor
  · intro hcon
    cases hsend : send server (postUrl s p) with
    | none => simp [get_post, hsend] at hcon
    | some final =>
      simp only [get_post, hsend] at hcon
      split at hcon
      · simp at hcon
      · split at hcon <;> simp_all
  · intro url st body hsend h4 h5
    simp [get_post, hsend, h4, h5]

/-- A server answering the comments request with a plain 404. -/
def err404PostServer : String → Option HttpResponse := fun url =>
  if url = postUrl "gfdghfj" "abc" then some (HttpResponse.mk 404 none Json.null)
  else none

/-- C3 witness for the amended theorem. -/
theorem get_post_omits_not_found_check_witness :
    (get_post err404PostServer "gfdghfj" "abc" ≠ Except.error Error.SubredditNotFound) ∧
    get_post err404PostServer "gfdghfj" "abc" =
      Except.error (Error.Reqwest (ReqwestError.status 404)) :=
  ⟨(get_post_omits_not_found_check err404PostServer "gfdghfj" "abc").1,
   (get_post_omits_not_found_check err404PostServer "gfdghfj" "abc").2
     (postUrl "gfdghfj" "abc") 404 Json.null rfl (by decide) (by decide)⟩

/-- A server answering both endpoints with 200 and a body that is not a
valid document for the respective decode (an empty JSON object). -/
def badBodyServer : String → Option HttpResponse := fun url =>
  if url = subredditUrl "badjson" 25 then some (HttpResponse.mk 200 none (Json.obj []))
  else if url = postUrl "badjson" "abc" then some (HttpResponse.mk 200 none (Json.obj []))
  else none

/-- C4 counterexample: on a decode failure the comment-tree fetch returns
the wrapped reqwest decode error, which carries no raw document. -/
theorem get_post_decode_error_lacks_document :
    decodeThingVec (Json.obj []) = none ∧
    get_post badBodyServer "badjson" "abc" =
      Except.error (Error.Reqwest (ReqwestError.decode serdeFailure)) ∧
    Error.documentOf (Error.Reqwest (ReqwestError.decode serdeFailure)) = none := by
  have hvec : decodeThingVec (Json.obj []) = none := rfl
  have h1 := get_post_decode_path badBodyServer "badjson" "abc"
    (postUrl "badjson" "abc") 200 (Json.obj []) rfl (by decide)
  rw [hvec] at h1
  exact ⟨hvec, h1, rfl⟩

/-- C4 amended: on a body that fails to decode, the listing fetch returns a
decode error carrying the raw document (and the serde diagnostic), while
the comment-tree fetch returns the decode failure through the transport
error wrapper, which carries no document. -/
theorem decode_error_document_attachment (server : String → Option HttpResponse)
    (s p : String) (n : Nat)
    (url1 : String) (st1 : Nat) (body1 : Json)
    (url2 : String) (st2 : Nat) (body2 : Json)
    (h1 : send server (subredditUrl s n) = some (FinalResponse.mk url1 st1 body1))
    (h2 : ¬(400 ≤ st1 ∧ st1 ≤ 599))
    (h3 : strStartsWith url1 SEARCH_URL = false)
    (h4 : decodeThing body1 = none)
    (h5 : send server (postUrl s p) = some (FinalResponse.mk url2 st2 body2))
    (h6 : ¬(400 ≤ st2 ∧ st2 ≤ 599))
    (h7 : decodeThingVec body2 = none) :
    (get_subreddit server s n = Except.error (Error.Json body1 serdeFailure) ∧
     Error.documentOf (Error.Json body1 serdeFailure) = some body1) ∧
    (get_post server s p = Except.error (Error.Reqwest (ReqwestError.decode serdeFailure)) ∧
     Error.documentOf (Error.Reqwest (ReqwestError.decode serdeFailure)) = none) := by
  constructor
  · have hh := get_subreddit_decode_path server s n url1 st1 body1 h1 h2 h3
    rw [h4] at hh
    exact ⟨hh, rfl⟩
  · have hh := get_post_decode_path server s p url2 st2 body2 h5 h6
    rw [h7] at hh
    exact ⟨hh, rfl⟩

/-- C4 witness for the amended theorem. -/
theorem decode_error_document_attachment_witness :
    (get_subreddit badBodyServer "badjson" 25 =
      Except.error (Error.Json (Json.obj []) serdeFailure) ∧
     Error.documentOf (Error.Json (Json.obj []) serdeFailure) = some (Json.obj [])) ∧
    (get_post badBodyServer "badjson" "abc" =
      Except.error (Error.Reqwest (ReqwestError.decode serdeFailure)) ∧
     Error.documentOf (Error.Reqwest (ReqwestError.decode serdeFailure)) = none) := by
  have hdata : decodeThingData ([] : List (String × Json)) = none := by
    simp [decodeThingData, Json.lookup, decodeField, andThen_none]
  have hdt : decodeThing (Json.obj []) = none := by
    simp only [decodeThing, Json.lookup, decodeOptField, andThen_some, hdata,
      Option.map_none']
  exact decode_error_document_attachment badBodyServer "badjson" "abc" 25
    (subredditUrl "badjson" 25) 200 (Json.obj [])
    (postUrl "badjson" "abc") 200 (Json.obj [])
    rfl (by decide) (by decide) hdt rfl (by decide) rfl

/-- A server answering the comments request with an empty top-level array. -/
def emptyArrayPostServer : String → Option HttpResponse := fun url =>
  if url = postUrl "gfdghfj" "xyz" then some (HttpResponse.mk 200 none (Json.arr []))
  else none

/-- C6 counterexample: a comment-tree body that decodes successfully need
not yield two elements; the empty array decodes to the empty sequence. -/
theorem get_post_empty_body_not_two :
    get_post emptyArrayPostServer "gfdghfj" "xyz" = Except.ok ([] : List Thing) ∧
    ([] : List Thing).length ≠ 2 := by
  have hvec : decodeThingVec (Json.arr []) = some [] := by
    simp [decodeThingVec, decodeThingList]
  have h1 := get_post_decode_path emptyArrayPostServer "gfdghfj" "xyz"
    (postUrl "gfdghfj" "xyz") 200 (Json.arr []) rfl (by decide)
  rw [hvec] at h1
  exact ⟨h1, by decide⟩

/-- C6 amended: `get_post` decodes the body as a JSON array of things of
whatever length the array has (length preserved, no two-element check and
no constraint on the elements' kinds). -/
theorem get_post_decodes_any_length (server : String → Option HttpResponse)
    (s p : String) (url : String) (st : Nat) (xs : List Json) (ts : List Thing)
    (hsend : send server (postUrl s p) = some (FinalResponse.mk url st (Json.arr xs)))
    (hst : ¬(400 ≤ st ∧ st ≤ 599))
    (hdec : decodeThingList xs = some ts) :
    get_post server s p = Except.ok ts ∧ ts.length = xs.length := by
  have hh := get_post_decode_path server s p url st (Json.arr xs) hsend hst
  have hv : decodeThingVec (Json.arr xs) = some ts := by
    simp [decodeThingVec, hdec]
  rw [hv] at hh
  exact ⟨hh, decodeThingList_length xs ts hdec⟩

/-- A server answering the comments request with a two-listing body (the
shape the API uses for comment trees). -/
def twoListingPostServer : String → Option HttpResponse := fun url =>
  if url = postUrl "dankmemes" "h966lq" then
    some (HttpResponse.mk 200 none (Json.arr [listingBodyDoc, listingBodyDoc]))
  else none

/-- C6 witness for the amended theorem: a two-entry body decodes to a
two-element sequence. -/
theorem get_post_decodes_any_length_witness :
    get_post twoListingPostServer "dankmemes" "h966lq" =
      Except.ok [Thing.mk none none (ThingData.Listing (Listing.mk none none "mh" [])),
        Thing.mk none none (ThingData.Listing (Listing.mk none none "mh" []))] ∧
    [Thing.mk none none (ThingData.Listing (Listing.mk none none "mh" [])),
      Thing.mk none none (ThingData.Listing (Listing.mk none none "mh" []))].length =
      [listingBodyDoc, listingBodyDoc].length :=
  get_post_decodes_any_length twoListingPostServer "dankmemes" "h966lq"
    (postUrl "dankmemes" "h966lq") 200 [listingBodyDoc, listingBodyDoc]
    [Thing.mk none none (ThingData.Listing (Listing.mk none none "mh" [])),
      Thing.mk none none (ThingData.Listing (Listing.mk none none "mh" []))]
    rfl (by decide)
    (by simp only [decodeThingList, listingBodyDoc_decodes, andThen_some, Option.map_some'])
